import Mathlib

/-!
Shallow embedding of `custom_components/ensy_unofficial/client.py` from the
`ensy-home-assistant` repository: the Ensy MQTT client's device state, topic
decoder, command encoder and connect/disconnect callbacks, together with
theorems settling the specification claims about them.

Threading is erased: the source marshals each callback body onto the event
loop via `call_soon_threadsafe`; here each callback is a pure state
transition.  Observer callbacks are not modelled as functions; instead a
step records the argument tuple each registered observer is invoked with,
and the client records how many observers were registered via
`on_state_updated.append`.  A Python exception escaping a callback body
(only possible through `int(value)` on a malformed payload) is modelled by
the `raised` flag of a step result.
-/

namespace Ensy

/-- FanMode from client.py: `class FanMode(IntEnum): LOW = 1; MEDIUM = 2; HIGH = 3`. -/
inductive FanMode where
  | LOW
  | MEDIUM
  | HIGH
deriving DecidableEq

/-- Integer value of the `IntEnum` member, as used by `str(int(speed))`. -/
def FanMode.toInt : FanMode → Int
  | .LOW => 1
  | .MEDIUM => 2
  | .HIGH => 3

/-- PresetMode from client.py: `class PresetMode(StrEnum): HOME; AWAY; BOOST`. -/
inductive PresetMode where
  | HOME
  | AWAY
  | BOOST
deriving DecidableEq

/-- EnsyState from client.py: the dataclass of decoded appliance state.
Optional fields default to `None` (`none`); `is_online` defaults to `False`. -/
structure EnsyState where
  is_heating : Option Bool
  is_online : Bool
  fan_mode : Option FanMode
  preset_mode : Option PresetMode
  temperature_exhaust : Option Int
  temperature_extract : Option Int
  temperature_heater : Option Int
  temperature_outside : Option Int
  temperature_supply : Option Int
  temperature_target : Option Int
deriving DecidableEq

/-- The dataclass defaults: `EnsyState()` as constructed in `EnsyClient.__init__`. -/
def EnsyState.initial : EnsyState :=
  { is_heating := none
    is_online := false
    fan_mode := none
    preset_mode := none
    temperature_exhaust := none
    temperature_extract := none
    temperature_heater := none
    temperature_outside := none
    temperature_supply := none
    temperature_target := none }

/-- The mutable parts of an `EnsyClient` relevant to decoding and commands:
the two `asyncio.Event` latches (as booleans), the topic prefixes computed in
`__init__`, the number of observers appended to `on_state_updated`, and the
shared `EnsyState`. -/
structure ClientState where
  on_state_updated : Nat
  mac_address : String
  device_is_online : Bool
  device_is_discovered : Bool
  state_topic_pre : String
  apply_state_topic_pre : String
  state : EnsyState
deriving DecidableEq

/-- The positional-argument tuple a registered observer callback is invoked
with: `_on_message._propagate` calls `callback(self.state)` (one argument),
`_on_disconnect._propagate` calls `callback("status", "offline", self.state)`
(three arguments). -/
inductive ObserverCall where
  | snapshot (state : EnsyState)
  | triple (a b : String) (state : EnsyState)
deriving DecidableEq

/-- Result of one callback body run on the event loop: the client afterwards,
the calls made to observer callbacks (one list entry per registered
observer), and whether a Python exception escaped (from `int(value)`). -/
structure StepResult where
  client : ClientState
  calls : List ObserverCall
  raised : Bool
deriving DecidableEq

/-- One `publish(topic, payload, qos, retain)` call forwarded to the MQTT
client.  `EnsyClient.publish` defaults `qos=1`, `retain=True`. -/
structure PublishMsg where
  topic : String
  payload : String
  qos : Nat
  retain : Bool
deriving DecidableEq

/-- A publish with the default qos 1 and retain flag, as every command uses. -/
def publishMsg (topic payload : String) : PublishMsg :=
  ⟨topic, payload, 1, true⟩

/-- Models Python `s.startswith(p)` structurally on the character lists. -/
def listStartsWith : List Char → List Char → Bool
  | _, [] => true
  | [], _ :: _ => false
  | a :: s, b :: p => a == b && listStartsWith s p

/-- Models Python `s.startswith(p)`. -/
def pyStartsWith (s p : String) : Bool :=
  listStartsWith s.data p.data

/-- Models Python `s[n:]` (drop the first `n` characters). -/
def pyDrop (s : String) (n : Nat) : String :=
  String.mk (s.data.drop n)

/-- Decimal digits to a natural number; `none` when empty or non-digit. -/
def decDigits? (cs : List Char) : Option Nat :=
  if cs ≠ [] ∧ cs.all Char.isDigit then
    some (cs.foldl (fun n ch => 10 * n + (ch.toNat - 48)) 0)
  else none

/-- Models Python `int(value)` on a decimal string: surrounding whitespace is
stripped, an optional sign precedes the digits; anything else raises
`ValueError`, modelled as `none`. -/
def pyInt? (s : String) : Option Int :=
  let cs := ((s.data.dropWhile Char.isWhitespace).reverse.dropWhile Char.isWhitespace).reverse
  match cs with
  | '-' :: rest => (decDigits? rest).map (fun n => -(n : Int))
  | '+' :: rest => (decDigits? rest).map (fun n => (n : Int))
  | _ => (decDigits? cs).map (fun n => (n : Int))

/-- Models `mac_address.replace(":", "").lower()` from `EnsyClient.__init__`. -/
def normalizeMac (s : String) : String :=
  String.mk ((s.data.filter (fun ch => ch ≠ ':')).map Char.toLower)

def MIN_TEMPERATURE : Int := 15

def MAX_TEMPERATURE : Int := 26

namespace EnsyClient

/-- `EnsyClient.__init__`: empty observer list, both latches unset, topic
prefixes computed from the normalized MAC address, fresh `EnsyState()`. -/
def init (mac_address : String) : ClientState :=
  let mac := normalizeMac mac_address
  { on_state_updated := 0
    mac_address := mac
    device_is_online := false
    device_is_discovered := false
    state_topic_pre := "units/" ++ mac ++ "/unit/"
    apply_state_topic_pre := "units/" ++ mac ++ "/app/"
    state := EnsyState.initial }

/-- `client.on_state_updated.append(cb)`: one more registered observer. -/
def registerObserver (c : ClientState) : ClientState :=
  { c with on_state_updated := c.on_state_updated + 1 }

/-- A callback body that returns without mutating anything or notifying. -/
def skipStep (c : ClientState) : StepResult :=
  ⟨c, [], false⟩

/-- A callback body aborted by an escaping exception (`int(value)` failed). -/
def raiseStep (c : ClientState) : StepResult :=
  ⟨c, [], true⟩

/-- The notification loop `for callback in self.on_state_updated:
callback(self.state)` at the end of `_on_message._propagate`. -/
def notifyStep (c : ClientState) : StepResult :=
  ⟨c, List.replicate c.on_state_updated (ObserverCall.snapshot c.state), false⟩

/-- `FanMode(int(value))` under the guard `value in ("1", "2", "3")`. -/
def FanMode.ofValue (v : String) : FanMode :=
  if v = "1" then .LOW else if v = "2" then .MEDIUM else .HIGH

/-- The `_propagate` closure inside `EnsyClient._on_message`: sets the
discovered latch, then dispatches on the topic key; unmatched keys return
without notifying; every match mutates `self.state` and then notifies all
observers with the state snapshot. -/
def _propagate (c0 : ClientState) (key value : String) : StepResult :=
  let c := { c0 with device_is_discovered := true }
  if key = "temperature" then
    match pyInt? value with
    | some n => notifyStep { c with state := { c.state with temperature_target := some n } }
    | none => raiseStep c
  else if key = "status" then
    let c := { c with state := { c.state with is_online := value == "online" } }
    let c :=
      if c.state.is_online && !c.device_is_online then
        { c with device_is_online := true }
      else c
    notifyStep c
  else if key = "fan" then
    if value = "1" ∨ value = "2" ∨ value = "3" then
      notifyStep { c with state := { c.state with fan_mode := some (FanMode.ofValue value) } }
    else
      skipStep c
  else if key = "party" then
    notifyStep { c with state := { c.state with
      preset_mode := some (if value = "1" then PresetMode.BOOST else PresetMode.HOME) } }
  else if key = "absent" then
    notifyStep { c with state := { c.state with
      preset_mode := some (if value = "1" then PresetMode.AWAY else PresetMode.HOME) } }
  else if key = "textr" then
    match pyInt? value with
    | some n => notifyStep { c with state := { c.state with temperature_extract := some n } }
    | none => raiseStep c
  else if key = "texauh" then
    match pyInt? value with
    | some n => notifyStep { c with state := { c.state with temperature_exhaust := some n } }
    | none => raiseStep c
  else if key = "tsupl" then
    match pyInt? value with
    | some n => notifyStep { c with state := { c.state with temperature_supply := some n } }
    | none => raiseStep c
  else if key = "tout" then
    match pyInt? value with
    | some n => notifyStep { c with state := { c.state with temperature_outside := some n } }
    | none => raiseStep c
  else if key = "overheating" then
    match pyInt? value with
    | some n => notifyStep { c with state := { c.state with temperature_heater := some n } }
    | none => raiseStep c
  else if key = "he" then
    notifyStep { c with state := { c.state with is_heating := some (value == "1") } }
  else
    skipStep c

/-- `EnsyClient._on_message`: decode the payload, ignore topics without this
device's state-topic prefix, strip the prefix to a key and run `_propagate`. -/
def _on_message (c : ClientState) (topic payload : String) : StepResult :=
  if pyStartsWith topic c.state_topic_pre then
    _propagate c (pyDrop topic c.state_topic_pre.length) payload
  else
    skipStep c

/-- `EnsyClient._on_disconnect._propagate`: clear the online latch, set
`is_online = False`, then call every observer with
`("status", "offline", self.state)`. -/
def _on_disconnect (c0 : ClientState) : StepResult :=
  let c := { c0 with
    device_is_online := false
    state := { c0.state with is_online := false } }
  ⟨c, List.replicate c.on_state_updated (ObserverCall.triple "status" "offline" c.state), false⟩

/-- `EnsyClient.apply_state(key, value)`: publish to the command prefix. -/
def apply_state (c : ClientState) (key value : String) : List PublishMsg :=
  [publishMsg (c.apply_state_topic_pre ++ key) value]

/-- `EnsyClient.set_target_temperature`: `ValueError` outside
`[MIN_TEMPERATURE, MAX_TEMPERATURE]`, otherwise publish `str(temperature)`. -/
def set_target_temperature (c : ClientState) (temperature : Int) :
    Except String (List PublishMsg) :=
  if ¬ (MIN_TEMPERATURE ≤ temperature ∧ temperature ≤ MAX_TEMPERATURE) then
    Except.error "Temperature out of bounds"
  else
    Except.ok [publishMsg (c.apply_state_topic_pre ++ "temperature") (toString temperature)]

/-- `EnsyClient.set_preset_mode`: no-op when the requested mode equals the
currently known `state.preset_mode`; otherwise HOME publishes `absent=0`
then `party=2`, AWAY publishes `absent=1`, BOOST publishes `party=1`.
The source never assigns `self.state`, so the client passes through. -/
def set_preset_mode (c : ClientState) (preset_mode : PresetMode) :
    ClientState × List PublishMsg :=
  if c.state.preset_mode = some preset_mode then
    (c, [])
  else
    match preset_mode with
    | .HOME => (c, apply_state c "absent" "0" ++ apply_state c "party" "2")
    | .AWAY => (c, apply_state c "absent" "1")
    | .BOOST => (c, apply_state c "party" "1")

/-- `EnsyClient.set_fan_mode`: when the known preset mode is not HOME, first
run `set_preset_mode(HOME)`, then publish `str(int(speed))` to `fan`. -/
def set_fan_mode (c : ClientState) (speed : FanMode) :
    ClientState × List PublishMsg :=
  let pre :=
    if c.state.preset_mode ≠ some PresetMode.HOME then
      (set_preset_mode c PresetMode.HOME).2
    else []
  (c, pre ++ [publishMsg (c.apply_state_topic_pre ++ "fan") (toString (FanMode.toInt speed))])

/-- Sequentially decode a list of (topic, payload) messages. -/
def decodeAll (c : ClientState) (msgs : List (String × String)) : ClientState :=
  msgs.foldl (fun acc m => (_on_message acc m.1 m.2).client) c

end EnsyClient

/-- The topic keys matched by a `case` of `_propagate`'s `match` statement
(the `fan` case carries a payload guard; everything else falls to the
silent wildcard). -/
def decodedKeys : List String :=
  ["temperature", "status", "fan", "party", "absent",
   "textr", "texauh", "tsupl", "tout", "overheating", "he"]


/-- Claim C1 (amended): the online latch is set true when a decoded status
report's payload equals "online" and is cleared on a transport disconnect;
a status report of any other value sets `is_online` false but leaves the
online latch unchanged; a disconnect leaves the discovered latch set. -/
theorem C1_online_latch (c : ClientState) (v : String) :
    ((EnsyClient._propagate c "status" v).client.device_is_online
        = (if v = "online" then true else c.device_is_online))
    ∧ ((EnsyClient._propagate c "status" v).client.state.is_online = (v == "online"))
    ∧ ((EnsyClient._on_disconnect c).client.device_is_online = false)
    ∧ ((EnsyClient._on_disconnect c).client.device_is_discovered = c.device_is_discovered) := by
  refine ⟨?_, ?_, rfl, rfl⟩
  · by_cases hv : v = "online"
    · cases hdio : c.device_is_online <;>
        simp [EnsyClient._propagate, EnsyClient.notifyStep, hv, hdio]
    · simp [EnsyClient._propagate, EnsyClient.notifyStep, hv]
  · by_cases hv : v = "online" <;>
      cases hdio : c.device_is_online <;>
      simp [EnsyClient._propagate, EnsyClient.notifyStep, hv, hdio]

set_option maxRecDepth 4000 in
/-- Claim C1, counterexample to the claim as stated: after `status=online`
the online latch is set; a subsequent `status=offline` report sets
`is_online` false but does NOT clear the online latch, whereas the claim
says any other status value clears it. -/
theorem C1_counterexample :
    let c0 := EnsyClient.init "00:00:00:00:00:00"
    let t := "units/000000000000/unit/status"
    let c1 := (EnsyClient._on_message c0 t "online").client
    let c2 := (EnsyClient._on_message c1 t "offline").client
    c1.device_is_online = true ∧ c2.state.is_online = false
      ∧ c2.device_is_online = true := by
  decide

/-- Claim C4: party payload "1" sets BOOST, anything else HOME; absent
payload "1" sets AWAY, anything else HOME; the most recently decoded flag
alone determines the resulting preset mode. -/
theorem C4_preset_flags (c : ClientState) (v w : String) :
    ((EnsyClient._propagate c "party" v).client.state.preset_mode
        = some (if v = "1" then PresetMode.BOOST else PresetMode.HOME))
    ∧ ((EnsyClient._propagate c "absent" v).client.state.preset_mode
        = some (if v = "1" then PresetMode.AWAY else PresetMode.HOME))
    ∧ ((EnsyClient._propagate (EnsyClient._propagate c "party" v).client "absent" w).client.state.preset_mode
        = (EnsyClient._propagate c "absent" w).client.state.preset_mode)
    ∧ ((EnsyClient._propagate (EnsyClient._propagate c "absent" v).client "party" w).client.state.preset_mode
        = (EnsyClient._propagate c "party" w).client.state.preset_mode) := by
  refine ⟨?_, ?_, ?_, ?_⟩ <;>
    simp [EnsyClient._propagate, EnsyClient.notifyStep]


/-- Claim C2: on a transport disconnect the code does clear the online latch
and set `is_online` false, but it invokes each registered observer with the
three positional arguments `("status", "offline", state)`, not with the
Device State snapshot alone that the observer list's declared type
`list[Callable[[EnsyState], None]]` and the claim call for. -/
theorem C2_disconnect_callback_args :
    (EnsyClient._on_disconnect (EnsyClient.registerObserver
        (EnsyClient.init "00:00:00:00:00:00"))).client.device_is_online = false
      ∧ (EnsyClient._on_disconnect (EnsyClient.registerObserver
          (EnsyClient.init "00:00:00:00:00:00"))).client.state.is_online = false
      ∧ (EnsyClient._on_disconnect (EnsyClient.registerObserver
          (EnsyClient.init "00:00:00:00:00:00"))).calls
        = [ObserverCall.triple "status" "offline"
            (EnsyClient._on_disconnect (EnsyClient.registerObserver
              (EnsyClient.init "00:00:00:00:00:00"))).client.state] := by
  exact ⟨rfl, rfl, rfl⟩

set_option maxRecDepth 8000 in
/-- Claim C3: decoding the ten-message sequence from the initial client state
yields exactly the claimed final device state. -/
theorem C3_end_to_end :
    (EnsyClient.decodeAll (EnsyClient.init "00:00:00:00:00:00")
      [("units/000000000000/unit/status", "online"),
       ("units/000000000000/unit/fan", "2"),
       ("units/000000000000/unit/party", "0"),
       ("units/000000000000/unit/absent", "0"),
       ("units/000000000000/unit/textr", "18"),
       ("units/000000000000/unit/texauh", "19"),
       ("units/000000000000/unit/tsupl", "20"),
       ("units/000000000000/unit/tout", "21"),
       ("units/000000000000/unit/overheating", "22"),
       ("units/000000000000/unit/he", "1")]).state =
    { is_heating := some true
      is_online := true
      fan_mode := some FanMode.MEDIUM
      preset_mode := some PresetMode.HOME
      temperature_exhaust := some 19
      temperature_extract := some 18
      temperature_heater := some 22
      temperature_outside := some 21
      temperature_supply := some 20
      temperature_target := none } := by
  decide

/-- Claim C5: `set_target_temperature` raises the out-of-bounds `ValueError`
exactly when the value lies outside the closed interval [15, 26], and for
in-range values publishes exactly the string-encoded integer to the
outbound `temperature` command topic. -/
theorem C5_temperature_bounds (c : ClientState) (t : Int) :
    (EnsyClient.set_target_temperature c t = Except.error "Temperature out of bounds"
        ↔ (t < 15 ∨ 26 < t))
    ∧ (EnsyClient.set_target_temperature c t
          = Except.ok [publishMsg (c.apply_state_topic_pre ++ "temperature") (toString t)]
        ↔ (15 ≤ t ∧ t ≤ 26)) := by
  by_cases h : MIN_TEMPERATURE ≤ t ∧ t ≤ MAX_TEMPERATURE <;>
    simp [EnsyClient.set_target_temperature, h] <;>
    simp [MIN_TEMPERATURE, MAX_TEMPERATURE] at h ⊢ <;>
    omega

/-- Claim C7: `set_preset_mode` with the currently known preset mode
publishes nothing and leaves the client, hence Device State, unchanged. -/
theorem C7_preset_idempotent (c : ClientState) (m : PresetMode)
    (h : c.state.preset_mode = some m) :
    EnsyClient.set_preset_mode c m = (c, []) := by
  simp [EnsyClient.set_preset_mode, h]

/-- Claim C7, witness: a concrete client whose known preset mode is HOME. -/
theorem C7_witness :
    let c := { EnsyClient.init "aa" with
      state := { EnsyState.initial with preset_mode := some PresetMode.HOME } }
    EnsyClient.set_preset_mode c PresetMode.HOME = (c, []) := by
  exact C7_preset_idempotent _ PresetMode.HOME rfl


/-- Every branch of `_propagate` leaves the discovered latch set: the latch
is set before the key dispatch, and no branch clears it. -/
lemma propagate_sets_discovered (c : ClientState) (k v : String) :
    (EnsyClient._propagate c k v).client.device_is_discovered = true := by
  simp only [EnsyClient._propagate]
  by_cases h1 : k = "temperature"
  · rw [if_pos h1]
    cases hpv : pyInt? v <;> rfl
  rw [if_neg h1]
  by_cases h2 : k = "status"
  · rw [if_pos h2]
    split_ifs <;> rfl
  rw [if_neg h2]
  by_cases h3 : k = "fan"
  · rw [if_pos h3]
    split_ifs <;> rfl
  rw [if_neg h3]
  by_cases h4 : k = "party"
  · rw [if_pos h4]
    rfl
  rw [if_neg h4]
  by_cases h5 : k = "absent"
  · rw [if_pos h5]
    rfl
  rw [if_neg h5]
  by_cases h6 : k = "textr"
  · rw [if_pos h6]
    cases hpv : pyInt? v <;> rfl
  rw [if_neg h6]
  by_cases h7 : k = "texauh"
  · rw [if_pos h7]
    cases hpv : pyInt? v <;> rfl
  rw [if_neg h7]
  by_cases h8 : k = "tsupl"
  · rw [if_pos h8]
    cases hpv : pyInt? v <;> rfl
  rw [if_neg h8]
  by_cases h9 : k = "tout"
  · rw [if_pos h9]
    cases hpv : pyInt? v <;> rfl
  rw [if_neg h9]
  by_cases h10 : k = "overheating"
  · rw [if_pos h10]
    cases hpv : pyInt? v <;> rfl
  rw [if_neg h10]
  by_cases h11 : k = "he"
  · rw [if_pos h11]
    rfl
  rw [if_neg h11]
  rfl

/-- Claim C6: when the known preset mode is AWAY or BOOST,
`set_fan_mode(MEDIUM)` publishes exactly `absent=0`, then `party=2`, then
`fan=2`: the preset-clearing publishes precede the fan publish. -/
theorem C6_fan_clears_preset (c : ClientState)
    (h : c.state.preset_mode = some PresetMode.AWAY
        ∨ c.state.preset_mode = some PresetMode.BOOST) :
    (EnsyClient.set_fan_mode c FanMode.MEDIUM).2
      = [publishMsg (c.apply_state_topic_pre ++ "absent") "0",
         publishMsg (c.apply_state_topic_pre ++ "party") "2",
         publishMsg (c.apply_state_topic_pre ++ "fan") "2"] := by
  rcases h with h | h <;>
    simp [EnsyClient.set_fan_mode, EnsyClient.set_preset_mode, EnsyClient.apply_state, h,
      FanMode.toInt] <;>
    rfl

/-- Claim C6, witness: a concrete client whose known preset mode is AWAY. -/
theorem C6_witness :
    let c := { EnsyClient.init "aa" with
      state := { EnsyState.initial with preset_mode := some PresetMode.AWAY } }
    (EnsyClient.set_fan_mode c FanMode.MEDIUM).2
      = [publishMsg (c.apply_state_topic_pre ++ "absent") "0",
         publishMsg (c.apply_state_topic_pre ++ "party") "2",
         publishMsg (c.apply_state_topic_pre ++ "fan") "2"] := by
  exact C6_fan_clears_preset _ (Or.inl rfl)

/-- Claim C8, counterexample to the claim as stated: the decoder's match
statement carries eleven decoded keys, not twelve. -/
theorem C8_counterexample :
    decodedKeys.length = 11 ∧ decodedKeys.length ≠ 12 := by
  decide

/-- Claim C8 (amended): a message whose topic lacks this device's inbound
prefix changes nothing and notifies nobody, and a prefix-matching message
whose stripped key is not one of the eleven decoded keys changes no Device
State field and notifies nobody. -/
theorem C8_unmatched_ignored (c : ClientState) (topic key v : String) :
    (pyStartsWith topic c.state_topic_pre = false →
        EnsyClient._on_message c topic v = EnsyClient.skipStep c)
    ∧ (key ∉ decodedKeys →
        (EnsyClient._propagate c key v).client.state = c.state
          ∧ (EnsyClient._propagate c key v).calls = []) := by
  constructor
  · intro h
    simp [EnsyClient._on_message, h]
  · intro hk
    simp [decodedKeys] at hk
    obtain ⟨h1, h2, h3, h4, h5, h6, h7, h8, h9, h10, h11⟩ := hk
    simp [EnsyClient._propagate, EnsyClient.skipStep,
      h1, h2, h3, h4, h5, h6, h7, h8, h9, h10, h11]

/-- Claim C8, witness: a foreign topic and the unmatched key `rm`. -/
theorem C8_witness :
    (EnsyClient._on_message (EnsyClient.init "aa") "nope/x" "1"
        = EnsyClient.skipStep (EnsyClient.init "aa"))
    ∧ ((EnsyClient._propagate (EnsyClient.init "aa") "rm" "1").client.state
          = (EnsyClient.init "aa").state
        ∧ (EnsyClient._propagate (EnsyClient.init "aa") "rm" "1").calls = []) := by
  exact ⟨(C8_unmatched_ignored (EnsyClient.init "aa") "nope/x" "rm" "1").1 (by decide),
         (C8_unmatched_ignored (EnsyClient.init "aa") "nope/x" "rm" "1").2 (by decide)⟩

/-- Claim C9: any prefix-matching message sets the discovered latch (even
with an unmatched key), and once set no message, disconnect, or command
clears it. -/
theorem C9_discovered (c : ClientState) (topic v : String)
    (m : PresetMode) (speed : FanMode) :
    (pyStartsWith topic c.state_topic_pre = true →
        (EnsyClient._on_message c topic v).client.device_is_discovered = true)
    ∧ (c.device_is_discovered = true →
        (EnsyClient._on_message c topic v).client.device_is_discovered = true
          ∧ (EnsyClient._on_disconnect c).client.device_is_discovered = true
          ∧ (EnsyClient.set_preset_mode c m).1.device_is_discovered = true
          ∧ (EnsyClient.set_fan_mode c speed).1.device_is_discovered = true) := by
  constructor
  · intro h
    simp [EnsyClient._on_message, h, propagate_sets_discovered]
  · intro h
    refine ⟨?_, h, ?_, h⟩
    · unfold EnsyClient._on_message
      split
      · exact propagate_sets_discovered c _ v
      · exact h
    · unfold EnsyClient.set_preset_mode
      by_cases hp : c.state.preset_mode = some m
      · rw [if_pos hp]
        exact h
      · rw [if_neg hp]
        cases m <;> exact h

/-- Claim C9, witness: a prefix-matching message with the unmatched key `rm`
sets the latch, and a disconnect on a discovered client keeps it. -/
theorem C9_witness :
    ((EnsyClient._on_message (EnsyClient.init "aa")
        "units/aa/unit/rm" "x").client.device_is_discovered = true)
    ∧ ((EnsyClient._on_disconnect
        { EnsyClient.init "aa" with device_is_discovered := true
          }).client.device_is_discovered = true) := by
  refine ⟨(C9_discovered (EnsyClient.init "aa") "units/aa/unit/rm" "x"
      PresetMode.HOME FanMode.LOW).1 (by decide), ?_⟩
  exact ((C9_discovered { EnsyClient.init "aa" with device_is_discovered := true }
      "t" "x" PresetMode.HOME FanMode.LOW).2 rfl).2.1

/-- Claim C10: with the preset mode still unknown (`None`), `set_fan_mode`
publishes `absent=0`, `party=2` and then the fan speed, and
`set_preset_mode(HOME)` is not a no-op: the guard compares against HOME,
not against "a preset is known". -/
theorem C10_unknown_preset (c : ClientState) (speed : FanMode)
    (h : c.state.preset_mode = none) :
    (EnsyClient.set_fan_mode c speed).2
      = [publishMsg (c.apply_state_topic_pre ++ "absent") "0",
         publishMsg (c.apply_state_topic_pre ++ "party") "2",
         publishMsg (c.apply_state_topic_pre ++ "fan") (toString (FanMode.toInt speed))]
    ∧ (EnsyClient.set_preset_mode c PresetMode.HOME)
        = (c, [publishMsg (c.apply_state_topic_pre ++ "absent") "0",
               publishMsg (c.apply_state_topic_pre ++ "party") "2"]) := by
  simp [EnsyClient.set_fan_mode, EnsyClient.set_preset_mode, EnsyClient.apply_state, h]

/-- Claim C10, witness: a freshly constructed client has no known preset. -/
theorem C10_witness :
    (EnsyClient.set_fan_mode (EnsyClient.init "aa") FanMode.MEDIUM).2
      = [publishMsg ((EnsyClient.init "aa").apply_state_topic_pre ++ "absent") "0",
         publishMsg ((EnsyClient.init "aa").apply_state_topic_pre ++ "party") "2",
         publishMsg ((EnsyClient.init "aa").apply_state_topic_pre ++ "fan")
           (toString (FanMode.toInt FanMode.MEDIUM))]
    ∧ (EnsyClient.set_preset_mode (EnsyClient.init "aa") PresetMode.HOME)
        = (EnsyClient.init "aa",
           [publishMsg ((EnsyClient.init "aa").apply_state_topic_pre ++ "absent") "0",
            publishMsg ((EnsyClient.init "aa").apply_state_topic_pre ++ "party") "2"]) := by
  exact C10_unknown_preset (EnsyClient.init "aa") FanMode.MEDIUM rfl

end Ensy
